import Mathlib

/-!
# Verification of `mirror.py` (archive-mirror)

Shallow embedding of the mirror engine in `mirror.py`: the checksum-document
parser `parse_hash_file` and the fetch–verify–commit protocol `fetch_file`.

Modelling conventions:
* File contents are `String`s; a file that does not exist is `none`.
* The filesystem state relevant to one destination path `P` is the triple
  (content of `P`, content of the cache record `P.sha256`, content of the
  lock/in-flight payload file `P.downloading`) — the three derived paths of
  the persisted layout.
* The network is an oracle (`Net`) fixing the status and body of the
  checksum-document response, the status and body of the streamed payload
  response, and optionally an exception raised inside the streaming `try`
  block (modelling any network/disk error mid-download).
* SHA-256 itself is abstracted as a function parameter `sha256hex`: the code
  feeds every streamed chunk into one accumulator, so the downloaded digest
  is a function of the full payload byte sequence.
* The observable side effects of one run are recorded as an ordered `Event`
  list (HTTP requests issued, temp-file creation/deletion, the atomic move,
  the cache write).
* Python exceptions become `FetchResult.error` with a structured
  `FetchError` identifying the `raise` site (the Python message is kept in a
  comment at each site).
-/

/-- Whitespace as recognised by Python `str.split()` / `str.strip()` with no
arguments (ASCII subset: space, tab, newline, carriage return, vertical tab,
form feed). -/
def isPySpace (c : Char) : Bool :=
  c = ' ' || c = '\t' || c = '\n' || c = '\r' || c = '\x0b' || c = '\x0c'

/-- Worker for Python `str.split()` with no arguments: splits on runs of
whitespace and discards empty fields. `cur` holds the current in-progress
word, reversed. -/
def wordsAux (cur : List Char) : List Char → List (List Char)
  | [] => if cur = [] then [] else [cur.reverse]
  | c :: cs =>
    if isPySpace c then
      (if cur = [] then [] else [cur.reverse]) ++ wordsAux [] cs
    else
      wordsAux (c :: cur) cs

/-- Python `s.split()` (no arguments). -/
def pySplit (s : String) : List String :=
  (wordsAux [] s.toList).map String.mk

/-- Python `s.strip()` (no arguments): remove leading and trailing
whitespace. -/
def pyStrip (s : String) : String :=
  String.mk (((s.toList.dropWhile isPySpace).reverse.dropWhile isPySpace).reverse)

/-- Source `mirror.py` lines 35–53, `parse_hash_file`:
`parts = content.strip().split()`; raise `ValueError("Empty hash file")` when
`parts` is empty, else return `parts[0]`. -/
def parse_hash_file (content : String) : Except String String :=
  match pySplit (pyStrip content) with
  | [] => Except.error "Empty hash file"
  | p :: _ => Except.ok p

/-- Modelled from the spec: "first whitespace-delimited token = digest,
remainder ignored" — the first maximal run of non-whitespace characters. -/
def firstToken (s : String) : String :=
  String.mk ((s.toList.dropWhile isPySpace).takeWhile (fun c => !isPySpace c))

/-! ## Lemmas about the word splitter -/

theorem wordsAux_sound (cs : List Char) :
    ∀ cur, (∀ c ∈ cur, isPySpace c = false) →
      ∀ w ∈ wordsAux cur cs, w ≠ [] ∧ ∀ c ∈ w, isPySpace c = false := by
  induction cs with
  | nil =>
    intro cur hcur w hw
    by_cases h : cur = []
    · simp [wordsAux, h] at hw
    · simp only [wordsAux, if_neg h, List.mem_singleton] at hw
      subst hw
      refine ⟨by simpa using h, fun c hc => hcur c ?_⟩
      exact List.mem_reverse.mp hc
  | cons a as ih =>
    intro cur hcur w hw
    simp only [wordsAux] at hw
    by_cases ha : isPySpace a
    · rw [if_pos ha] at hw
      rcases List.mem_append.mp hw with h1 | h2
      · by_cases h : cur = []
        · simp [h] at h1
        · simp only [if_neg h, List.mem_singleton] at h1
          subst h1
          refine ⟨by simpa using h, fun c hc => hcur c ?_⟩
          exact List.mem_reverse.mp hc
      · exact ih [] (by simp) w h2
    · rw [if_neg ha] at hw
      refine ih (a :: cur) ?_ w hw
      intro c hc
      rcases List.mem_cons.mp hc with rfl | h
      · simpa using ha
      · exact hcur c h

/-- On a whitespace-only input the splitter yields no words. -/
theorem wordsAux_all_space (cs : List Char) (h : ∀ c ∈ cs, isPySpace c = true) :
    wordsAux [] cs = [] := by
  induction cs with
  | nil => rfl
  | cons a as ih =>
    have ha : isPySpace a = true := h a (by simp)
    simp only [wordsAux, ha, if_pos, if_true]
    simpa using ih fun c hc => h c (by simp [hc])

/-- Running the splitter on whitespace-only input just flushes the current
word. -/
theorem wordsAux_space_flush (t : List Char) (cur : List Char)
    (h : ∀ c ∈ t, isPySpace c = true) :
    wordsAux cur t = if cur = [] then [] else [cur.reverse] := by
  cases t with
  | nil => rfl
  | cons a as =>
    have ha : isPySpace a = true := h a (by simp)
    simp only [wordsAux, ha, if_true]
    rw [wordsAux_all_space as fun c hc => h c (by simp [hc])]
    simp

/-- Trailing whitespace does not change the split. -/
theorem wordsAux_append_space (cs : List Char) :
    ∀ cur (t : List Char), (∀ c ∈ t, isPySpace c = true) →
      wordsAux cur (cs ++ t) = wordsAux cur cs := by
  induction cs with
  | nil =>
    intro cur t h
    rw [List.nil_append, wordsAux_space_flush t cur h]
    rfl
  | cons a as ih =>
    intro cur t h
    by_cases ha : isPySpace a
    · simp only [List.cons_append, wordsAux, if_pos ha, List.append_eq]
      rw [ih [] t h]
    · simp only [List.cons_append, wordsAux, if_neg ha]
      exact ih (a :: cur) t h

/-- Leading whitespace does not change the split. -/
theorem wordsAux_dropWhile (cs : List Char) :
    wordsAux [] (cs.dropWhile isPySpace) = wordsAux [] cs := by
  induction cs with
  | nil => rfl
  | cons a as ih =>
    by_cases ha : isPySpace a
    · rw [List.dropWhile_cons_of_pos ha, ih]
      simp [wordsAux, ha]
    · rw [List.dropWhile_cons_of_neg ha]

/-- Applying `strip()` before `split()` is a no-op: `pySplit (pyStrip s) = pySplit s`. -/
theorem pySplit_pyStrip (s : String) : pySplit (pyStrip s) = pySplit s := by
  unfold pySplit pyStrip
  congr 1
  have hmk : (String.mk (((s.toList.dropWhile isPySpace).reverse.dropWhile
      isPySpace).reverse)).toList
      = ((s.toList.dropWhile isPySpace).reverse.dropWhile isPySpace).reverse := rfl
  rw [hmk]
  set m := s.toList.dropWhile isPySpace with hm
  have hdecomp : m = (m.reverse.dropWhile isPySpace).reverse
      ++ (m.reverse.takeWhile isPySpace).reverse := by
    conv_lhs => rw [← List.reverse_reverse m,
      ← List.takeWhile_append_dropWhile (p := isPySpace) (l := m.reverse)]
    rw [List.reverse_append]
  have hsp : ∀ c ∈ (m.reverse.takeWhile isPySpace).reverse, isPySpace c = true := by
    intro c hc
    exact List.mem_takeWhile_imp (List.mem_reverse.mp hc)
  calc wordsAux [] (m.reverse.dropWhile isPySpace).reverse
      = wordsAux [] ((m.reverse.dropWhile isPySpace).reverse
          ++ (m.reverse.takeWhile isPySpace).reverse) :=
        (wordsAux_append_space _ [] _ hsp).symm
    _ = wordsAux [] m := by rw [← hdecomp]
    _ = wordsAux [] s.toList := by rw [hm, wordsAux_dropWhile]

/-- When a word is in progress, the splitter emits the current word extended
by the next maximal non-whitespace run, then continues. -/
theorem wordsAux_word (cs : List Char) :
    ∀ cur, cur ≠ [] →
      wordsAux cur cs
        = (cur.reverse ++ cs.takeWhile (fun c => !isPySpace c))
            :: wordsAux [] (cs.dropWhile (fun c => !isPySpace c)) := by
  induction cs with
  | nil =>
    intro cur hne
    simp [wordsAux, hne]
  | cons a as ih =>
    intro cur hne
    by_cases ha : isPySpace a
    · simp only [List.takeWhile_cons, List.dropWhile_cons, ha, Bool.not_true,
        Bool.false_eq_true, if_false, wordsAux, if_pos ha, if_neg hne,
        List.append_nil]
      simp [wordsAux, ha, hne]
    · have ha' : isPySpace a = false := by simpa using ha
      simp only [List.takeWhile_cons, List.dropWhile_cons, ha', Bool.not_false,
        if_true, wordsAux, if_neg ha]
      rw [ih (a :: cur) (by simp)]
      simp

/-- The element exposed by `dropWhile` fails the predicate. -/
theorem dropWhile_head_false (p : Char → Bool) (l : List Char) (b : Char)
    (bs : List Char) (h : l.dropWhile p = b :: bs) : p b = false := by
  induction l with
  | nil => simp at h
  | cons a as ih =>
    by_cases ha : p a
    · rw [List.dropWhile_cons_of_pos ha] at h
      exact ih h
    · rw [List.dropWhile_cons_of_neg ha] at h
      cases h
      simpa using ha

/-- Any digest returned by `parse_hash_file` is a non-empty string free of
whitespace. -/
theorem parse_hash_file_ok_sound (content t : String)
    (h : parse_hash_file content = Except.ok t) :
    t ≠ "" ∧ ∀ c ∈ t.toList, isPySpace c = false := by
  unfold parse_hash_file at h
  rw [pySplit_pyStrip] at h
  unfold pySplit at h
  rcases hw : wordsAux [] content.toList with _ | ⟨w, rest⟩
  · rw [hw] at h
    simp at h
  · rw [hw] at h
    simp only [List.map_cons] at h
    have ht : t = String.mk w := by
      cases h
      rfl
    subst ht
    have hsound := wordsAux_sound content.toList [] (by simp) w (by rw [hw]; simp)
    refine ⟨?_, hsound.2⟩
    intro he
    exact hsound.1 (by simpa using congrArg String.data he)

/-- On input with at least one non-whitespace character, `parse_hash_file`
returns the first whitespace-delimited token. -/
theorem parse_hash_file_first (content : String)
    (h : ∃ c ∈ content.toList, isPySpace c = false) :
    parse_hash_file content = Except.ok (firstToken content) := by
  unfold parse_hash_file firstToken
  rw [pySplit_pyStrip]
  unfold pySplit
  rw [← wordsAux_dropWhile]
  rcases hm : content.toList.dropWhile isPySpace with _ | ⟨b, bs⟩
  · exfalso
    obtain ⟨c, hc, hcf⟩ := h
    have := (List.dropWhile_eq_nil_iff).mp hm c hc
    rw [hcf] at this
    exact Bool.false_ne_true this
  · have hb : isPySpace b = false := dropWhile_head_false isPySpace _ b bs hm
    show (match (wordsAux [] (b :: bs)).map String.mk with
      | [] => Except.error "Empty hash file"
      | p :: _ => Except.ok p)
      = Except.ok (String.mk ((b :: bs).takeWhile (fun c => !isPySpace c)))
    have hstep : wordsAux [] (b :: bs) = wordsAux [b] bs := by
      simp [wordsAux, hb]
    rw [hstep, wordsAux_word bs [b] (by simp)]
    simp [List.takeWhile_cons, hb]

/-- On empty or whitespace-only input, `parse_hash_file` raises. -/
theorem parse_hash_file_all_space (content : String)
    (h : ∀ c ∈ content.toList, isPySpace c = true) :
    parse_hash_file content = Except.error "Empty hash file" := by
  unfold parse_hash_file
  rw [pySplit_pyStrip]
  unfold pySplit
  rw [wordsAux_all_space content.toList h]
  rfl

/-! ## The fetch–verify–commit protocol (`fetch_file`, `mirror.py` lines 56–218) -/

/-- The distinct `raise` sites of `fetch_file`, with their dynamic data.
The Python messages are:
* `hashUrlMissing` — `"hash_url must be provided"` (line 76);
* `hashFetchFailed u s` — `"Failed to fetch hash from {u}: {s}"` (line 90);
* `invalidFormat m` — `"Invalid hash file format: {m}"` (line 97);
* `emptyHash u` — `"Empty hash received from {u}"` (line 101);
* `hashMismatch u` — `"Hash mismatch for {u}"` (line 192);
* `streamFailure m` — an arbitrary exception `m` (network/disk error) raised
  inside the streaming `try` block and re-raised after the `finally` cleanup. -/
inductive FetchError where
  | hashUrlMissing : FetchError
  | hashFetchFailed (hash_url : String) (status : Nat) : FetchError
  | invalidFormat (msg : String) : FetchError
  | emptyHash (hash_url : String) : FetchError
  | hashMismatch (url : String) : FetchError
  | streamFailure (msg : String) : FetchError
deriving DecidableEq, Repr

/-- Terminal outcome of one `fetch_file` invocation: a returned boolean
(`True` = updated) or a propagated exception. -/
inductive FetchResult where
  | ok (updated : Bool) : FetchResult
  | error (e : FetchError) : FetchResult
deriving DecidableEq, Repr

/-- Observable side effects of one run, in program order:
`hashRequest` = the GET of the checksum document (line 88);
`createTemp` = opening the `.downloading` file for writing (line 143);
`streamRequest` = the streaming GET of the payload (line 152);
`moveTempToDest` = the single atomic `shutil.move` of the in-flight payload
over the destination (line 204 — same directory, hence one `os.rename`);
`writeCache` = writing the cache record (lines 208–209);
`deleteTemp` = the `finally` cleanup `os.unlink` (line 218). -/
inductive Event where
  | hashRequest : Event
  | createTemp : Event
  | streamRequest : Event
  | moveTempToDest : Event
  | writeCache : Event
  | deleteTemp : Event
deriving DecidableEq, Repr

/-- Filesystem state for one destination path: content of the destination
file, of the cache record (`get_hash_cache_path`, i.e. suffix replaced by
`.sha256`), and of the lock/in-flight file (suffix plus `.downloading`).
`none` = the file does not exist. -/
structure FS where
  dest : Option String
  cache : Option String
  downloading : Option String
deriving DecidableEq, Repr

/-- Network oracle for one run: checksum-document response status and body,
streamed payload response status and body, and an optional exception raised
during streaming (`none` = the stream completes). -/
structure Net where
  hashStatus : Nat
  hashBody : String
  streamStatus : Nat
  streamBody : String
  streamExc : Option String
deriving DecidableEq, Repr

/-- Source `mirror.py` lines 104–121: the cache check. True iff the destination
file and the cache record both exist and the cache record parses to exactly
the expected checksum. A missing or unparsable record is a cache miss
(fail open). -/
def cache_hit (fs : FS) (expected_hash : String) : Bool :=
  match fs.dest, fs.cache with
  | some _, some c =>
    match parse_hash_file c with
    | Except.ok cached => cached = expected_hash
    | Except.error _ => false
  | _, _ => false

/-- Source `mirror.py` lines 56–218, `fetch_file`. Control flow in source order:
reject an empty `hash_url` (75–77); GET the checksum document, requiring
status exactly `HTTPStatus.OK` = 200 (87–91); parse it (93–98); reject an
empty digest (100–102); cache check (104–121); lock check on the
`.downloading` file (130–137); create the in-flight payload file (143);
stream the payload, requiring status exactly 200, returning `False` on any
other status (150–161); any exception during streaming propagates; verify
the digest, raising on mismatch (186–193); on match, atomically move the
payload over the destination and write the cache record
`f"{expected_hash}  {output_path}"` (195–212); the `finally` block deletes
the in-flight payload on every non-success exit (214–218). -/
def fetch_file (sha256hex : String → String) (url : String)
    (output_path : String) (hash_url : String) (net : Net) (fs : FS) :
    FetchResult × FS × List Event :=
  if hash_url = "" then
    (FetchResult.error FetchError.hashUrlMissing, fs, [])
  else if net.hashStatus ≠ 200 then
    (FetchResult.error (FetchError.hashFetchFailed hash_url net.hashStatus),
      fs, [Event.hashRequest])
  else
    match parse_hash_file net.hashBody with
    | Except.error e =>
        (FetchResult.error (FetchError.invalidFormat e), fs, [Event.hashRequest])
    | Except.ok expected_hash =>
      if expected_hash = "" then
        (FetchResult.error (FetchError.emptyHash hash_url), fs,
          [Event.hashRequest])
      else if cache_hit fs expected_hash then
        (FetchResult.ok false, fs, [Event.hashRequest])
      else if fs.downloading.isSome then
        (FetchResult.ok false, fs, [Event.hashRequest])
      else if net.streamStatus ≠ 200 then
        (FetchResult.ok false, { fs with downloading := none },
          [Event.hashRequest, Event.createTemp, Event.streamRequest,
            Event.deleteTemp])
      else
        match net.streamExc with
        | some e =>
            (FetchResult.error (FetchError.streamFailure e),
              { fs with downloading := none },
              [Event.hashRequest, Event.createTemp, Event.streamRequest,
                Event.deleteTemp])
        | none =>
          if sha256hex net.streamBody ≠ expected_hash then
            (FetchResult.error (FetchError.hashMismatch url),
              { fs with downloading := none },
              [Event.hashRequest, Event.createTemp, Event.streamRequest,
                Event.deleteTemp])
          else
            (FetchResult.ok true,
              { dest := some net.streamBody,
                cache := some (expected_hash ++ "  " ++ output_path),
                downloading := none },
              [Event.hashRequest, Event.createTemp, Event.streamRequest,
                Event.moveTempToDest, Event.writeCache])

/-! ## Helper reductions of `fetch_file` -/

/-- Once the checksum document is fetched and parsed, the cache misses, no
lock is present and the stream completes with status 200, `fetch_file`
reduces to the verification step. -/
theorem fetch_file_verify_step (sha256hex : String → String)
    (url output_path hash_url : String) (net : Net) (fs : FS)
    (hu : hash_url ≠ "") (hs : net.hashStatus = 200) (expected_hash : String)
    (hp : parse_hash_file net.hashBody = Except.ok expected_hash)
    (hc : cache_hit fs expected_hash = false)
    (hl : fs.downloading = none)
    (hss : net.streamStatus = 200)
    (he : net.streamExc = none) :
    fetch_file sha256hex url output_path hash_url net fs =
      if sha256hex net.streamBody ≠ expected_hash then
        (FetchResult.error (FetchError.hashMismatch url),
          { fs with downloading := none },
          [Event.hashRequest, Event.createTemp, Event.streamRequest,
            Event.deleteTemp])
      else
        (FetchResult.ok true,
          { dest := some net.streamBody,
            cache := some (expected_hash ++ "  " ++ output_path),
            downloading := none },
          [Event.hashRequest, Event.createTemp, Event.streamRequest,
            Event.moveTempToDest, Event.writeCache]) := by
  have hne : expected_hash ≠ "" := (parse_hash_file_ok_sound _ _ hp).1
  unfold fetch_file
  rw [if_neg hu, hs, if_neg (by simp), hp]
  simp only [if_neg hne, hc, Bool.false_eq_true, if_false, hl, Option.isSome_none,
    hss, if_neg (by simp : ¬(200 : Nat) ≠ 200), he]

/-! ## Claim theorems -/

/-- C1: In every run of `fetch_file` in which the streamed payload's
digest differs from the expected digest parsed from the checksum document,
`fetch_file` raises the corruption (hash-mismatch) error; the in-flight
`.downloading` file is deleted before the error propagates (the `finally`
cleanup, recorded as `deleteTemp`, runs on the error path and the final
state carries no `.downloading` file); the destination file and the cache
record are left untouched; and in particular, when no destination file
existed beforehand, the destination path does not exist afterward. -/
theorem fetch_file_corruption_cleanup (sha256hex : String → String)
    (url output_path hash_url : String) (net : Net) (fs : FS)
    (hu : hash_url ≠ "") (hs : net.hashStatus = 200) (expected_hash : String)
    (hp : parse_hash_file net.hashBody = Except.ok expected_hash)
    (hc : cache_hit fs expected_hash = false)
    (hl : fs.downloading = none)
    (hss : net.streamStatus = 200)
    (he : net.streamExc = none)
    (hm : sha256hex net.streamBody ≠ expected_hash) :
    (fetch_file sha256hex url output_path hash_url net fs).1
        = FetchResult.error (FetchError.hashMismatch url) ∧
    (fetch_file sha256hex url output_path hash_url net fs).2.1.downloading
        = none ∧
    Event.deleteTemp ∈ (fetch_file sha256hex url output_path hash_url net fs).2.2 ∧
    (fetch_file sha256hex url output_path hash_url net fs).2.1.dest = fs.dest ∧
    (fetch_file sha256hex url output_path hash_url net fs).2.1.cache = fs.cache ∧
    (fs.dest = none →
      (fetch_file sha256hex url output_path hash_url net fs).2.1.dest = none) := by
  have key := fetch_file_verify_step sha256hex url output_path hash_url net fs
    hu hs expected_hash hp hc hl hss he
  rw [if_pos hm] at key
  rw [key]
  exact ⟨rfl, rfl, by simp, rfl, rfl, fun h => h⟩

/-- Witness for C1: a concrete corrupted run (expected digest `"aa"`,
downloaded digest `"xx"`). -/
theorem fetch_file_corruption_cleanup_witness :
    (fetch_file (fun _ => "xx") "u" "o" "h"
        (Net.mk 200 "aa f.bin" 200 "payload" none) (FS.mk none none none)).1
        = FetchResult.error (FetchError.hashMismatch "u") ∧
    (fetch_file (fun _ => "xx") "u" "o" "h"
        (Net.mk 200 "aa f.bin" 200 "payload" none)
        (FS.mk none none none)).2.1.downloading = none ∧
    Event.deleteTemp ∈ (fetch_file (fun _ => "xx") "u" "o" "h"
        (Net.mk 200 "aa f.bin" 200 "payload" none)
        (FS.mk none none none)).2.2 ∧
    (fetch_file (fun _ => "xx") "u" "o" "h"
        (Net.mk 200 "aa f.bin" 200 "payload" none)
        (FS.mk none none none)).2.1.dest = (FS.mk none none none).dest ∧
    (fetch_file (fun _ => "xx") "u" "o" "h"
        (Net.mk 200 "aa f.bin" 200 "payload" none)
        (FS.mk none none none)).2.1.cache = (FS.mk none none none).cache ∧
    ((FS.mk none none none).dest = none →
      (fetch_file (fun _ => "xx") "u" "o" "h"
        (Net.mk 200 "aa f.bin" 200 "payload" none)
        (FS.mk none none none)).2.1.dest = none) :=
  fetch_file_corruption_cleanup (fun _ => "xx") "u" "o" "h"
    (Net.mk 200 "aa f.bin" 200 "payload" none) (FS.mk none none none)
    (by decide) rfl "aa" rfl rfl rfl rfl rfl (by decide)

/-- C4: In every run of `fetch_file` in which the downloaded digest
equals the expected digest, the in-flight payload is promoted to the
destination by the single atomic move event (`moveTempToDest`, one
filesystem rename replacing any existing destination — the event list shows
no separate delete of the destination), then the cache record is written
containing the expected checksum followed by the filename reference
(`"{expected_hash}  {output_path}"`), `fetch_file` returns `True`, and the
`.downloading` file does not exist afterward. -/
theorem fetch_file_commit (sha256hex : String → String)
    (url output_path hash_url : String) (net : Net) (fs : FS)
    (hu : hash_url ≠ "") (hs : net.hashStatus = 200) (expected_hash : String)
    (hp : parse_hash_file net.hashBody = Except.ok expected_hash)
    (hc : cache_hit fs expected_hash = false)
    (hl : fs.downloading = none)
    (hss : net.streamStatus = 200)
    (he : net.streamExc = none)
    (hm : sha256hex net.streamBody = expected_hash) :
    fetch_file sha256hex url output_path hash_url net fs =
      (FetchResult.ok true,
        { dest := some net.streamBody,
          cache := some (expected_hash ++ "  " ++ output_path),
          downloading := none },
        [Event.hashRequest, Event.createTemp, Event.streamRequest,
          Event.moveTempToDest, Event.writeCache]) := by
  have key := fetch_file_verify_step sha256hex url output_path hash_url net fs
    hu hs expected_hash hp hc hl hss he
  rw [if_neg (by simp [hm])] at key
  exact key

/-- Witness for C4: a concrete committed run over an existing destination
file, replaced by the new payload. -/
theorem fetch_file_commit_witness :
    fetch_file (fun _ => "aa") "u" "o" "h"
        (Net.mk 200 "aa f.bin" 200 "payload" none)
        (FS.mk (some "OLD") (some "bb  o") none) =
      (FetchResult.ok true,
        { dest := some "payload", cache := some "aa  o", downloading := none },
        [Event.hashRequest, Event.createTemp, Event.streamRequest,
          Event.moveTempToDest, Event.writeCache]) :=
  fetch_file_commit (fun _ => "aa") "u" "o" "h"
    (Net.mk 200 "aa f.bin" 200 "payload" none)
    (FS.mk (some "OLD") (some "bb  o") none)
    (by decide) rfl "aa" rfl rfl rfl rfl rfl rfl

/-- C2: Every terminal outcome of `fetch_file` other than the committed
(`ok true`) one — unchanged, lock-skipped, transport failure during
streaming, corruption, or any propagated error — leaves the destination
file and the cache record exactly as they were at the start. (Disk faults
outside the streaming `try` block are outside the model: the model's fault
oracle covers both HTTP responses and any exception raised while
streaming.) -/
theorem fetch_file_non_commit_frame (sha256hex : String → String)
    (url output_path hash_url : String) (net : Net) (fs : FS)
    (r : FetchResult) (fs' : FS) (evs : List Event)
    (heq : fetch_file sha256hex url output_path hash_url net fs = (r, fs', evs))
    (hr : r ≠ FetchResult.ok true) :
    fs'.dest = fs.dest ∧ fs'.cache = fs.cache := by
  unfold fetch_file at heq
  repeat' split at heq
  all_goals cases heq
  all_goals simp_all

/-- Witness for C2: a concrete lock-skipped run leaves the destination and
cache contents in place. -/
theorem fetch_file_non_commit_frame_witness :
    (FS.mk (some "D") (some "C") (some "L")).dest
        = (FS.mk (some "D") (some "C") (some "L")).dest ∧
    (FS.mk (some "D") (some "C") (some "L")).cache
        = (FS.mk (some "D") (some "C") (some "L")).cache :=
  fetch_file_non_commit_frame (fun s => s) "u" "o" "h"
    (Net.mk 200 "aa f.bin" 200 "x" none) (FS.mk (some "D") (some "C") (some "L"))
    (FetchResult.ok false) (FS.mk (some "D") (some "C") (some "L"))
    [Event.hashRequest] rfl (by decide)

/-- C3 counterexample: the lock marker exists prior to invocation, yet with
an empty checksum document `fetch_file` raises the format error instead of
returning `False` — the claim's "regardless of the checksum-document
content" fails, because the hash resolver runs before the lock check. -/
theorem fetch_file_lock_skip_cex :
    (FS.mk none none (some "")).downloading.isSome = true ∧
    (fetch_file (fun s => s) "u" "o" "h" (Net.mk 200 "" 200 "" none)
        (FS.mk none none (some ""))).1
      = FetchResult.error (FetchError.invalidFormat "Empty hash file") ∧
    (fetch_file (fun s => s) "u" "o" "h" (Net.mk 200 "" 200 "" none)
        (FS.mk none none (some ""))).1 ≠ FetchResult.ok false :=
  ⟨rfl, rfl, by decide⟩

/-- C3 (amended): For every invocation of `fetch_file` where the
`.downloading` lock marker exists prior to invocation *and the
checksum-document fetch succeeds (status 200) with a document that parses
to a digest*, `fetch_file` returns `False` without issuing any streaming
HTTP request and without modifying anything (the state is returned
unchanged and the only event is the checksum-document request); the
checksum-document content beyond parseability is irrelevant. When instead
the checksum-document fetch fails or the document is empty, that error
propagates even though the lock exists (see the counterexample). -/
theorem fetch_file_lock_skip (sha256hex : String → String)
    (url output_path hash_url : String) (net : Net) (fs : FS)
    (hu : hash_url ≠ "") (hs : net.hashStatus = 200) (expected_hash : String)
    (hp : parse_hash_file net.hashBody = Except.ok expected_hash)
    (hl : fs.downloading.isSome = true) :
    fetch_file sha256hex url output_path hash_url net fs
      = (FetchResult.ok false, fs, [Event.hashRequest]) := by
  have hne : expected_hash ≠ "" := (parse_hash_file_ok_sound _ _ hp).1
  unfold fetch_file
  rw [if_neg hu, hs, if_neg (by simp), hp]
  simp only [if_neg hne, hl, if_true]
  by_cases hc : cache_hit fs expected_hash
  · rw [if_pos hc]
  · simp only [hc, Bool.false_eq_true, if_false]

/-- Witness for C3 (amended): a stale lock plus a well-formed checksum
document yields a skipped run. -/
theorem fetch_file_lock_skip_witness :
    fetch_file (fun s => s) "u" "o" "h" (Net.mk 200 "aa f.bin" 200 "x" none)
        (FS.mk none none (some ""))
      = (FetchResult.ok false, FS.mk none none (some ""), [Event.hashRequest]) :=
  fetch_file_lock_skip (fun s => s) "u" "o" "h"
    (Net.mk 200 "aa f.bin" 200 "x" none) (FS.mk none none (some ""))
    (by decide) rfl "aa" rfl rfl

/-- Shared reduction: when the destination and cache record exist and the
cache record parses to the expected checksum, the run stops at the cache
check with the state unchanged. -/
theorem fetch_file_cache_hit_run (sha256hex : String → String)
    (url output_path hash_url : String) (net : Net) (fs : FS)
    (hu : hash_url ≠ "") (hs : net.hashStatus = 200) (expected_hash : String)
    (hp : parse_hash_file net.hashBody = Except.ok expected_hash)
    (d : String) (hd : fs.dest = some d)
    (c : String) (hcache : fs.cache = some c)
    (hcp : parse_hash_file c = Except.ok expected_hash) :
    fetch_file sha256hex url output_path hash_url net fs
      = (FetchResult.ok false, fs, [Event.hashRequest]) := by
  have hne : expected_hash ≠ "" := (parse_hash_file_ok_sound _ _ hp).1
  have hhit : cache_hit fs expected_hash = true := by
    unfold cache_hit
    rw [hd, hcache]
    show (match parse_hash_file c with
      | Except.ok cached => decide (cached = expected_hash)
      | Except.error _ => false) = true
    rw [hcp]
    simp
  unfold fetch_file
  rw [if_neg hu, hs, if_neg (by simp), hp]
  simp only [if_neg hne, hhit, if_true]

/-- C5: When the destination file and its cache record both exist and
the checksum parsed from the cache record equals the expected checksum from
the checksum document, `fetch_file` returns `False`, performs no network
payload fetch (no `streamRequest` event) and performs no write to the
destination file, the cache record, or the lock marker (the state is
returned unchanged and the only event is the checksum-document request). -/
theorem fetch_file_cache_unchanged (sha256hex : String → String)
    (url output_path hash_url : String) (net : Net) (fs : FS)
    (hu : hash_url ≠ "") (hs : net.hashStatus = 200) (expected_hash : String)
    (hp : parse_hash_file net.hashBody = Except.ok expected_hash)
    (d : String) (hd : fs.dest = some d)
    (c : String) (hcache : fs.cache = some c)
    (hcp : parse_hash_file c = Except.ok expected_hash) :
    fetch_file sha256hex url output_path hash_url net fs
      = (FetchResult.ok false, fs, [Event.hashRequest]) :=
  fetch_file_cache_hit_run sha256hex url output_path hash_url net fs
    hu hs expected_hash hp d hd c hcache hcp

/-- Witness for C5: destination and cache record present, cached checksum
equal to the expected `"aa"`. -/
theorem fetch_file_cache_unchanged_witness :
    fetch_file (fun s => s) "u" "o" "h" (Net.mk 200 "aa f.bin" 200 "x" none)
        (FS.mk (some "D") (some "aa  o") none)
      = (FetchResult.ok false, FS.mk (some "D") (some "aa  o") none,
          [Event.hashRequest]) :=
  fetch_file_cache_unchanged (fun s => s) "u" "o" "h"
    (Net.mk 200 "aa f.bin" 200 "x" none) (FS.mk (some "D") (some "aa  o") none)
    (by decide) rfl "aa" rfl "D" rfl "aa  o" rfl rfl

/-- C6 counterexample: HTTP 204 is a success status (2xx class), yet the
code — which compares against `HTTPStatus.OK` = 200 exactly — fails the
operation with the transport error naming 204 instead of proceeding. -/
theorem fetch_file_hash_status_cex :
    (200 ≤ 204 ∧ 204 < 300) ∧
    (fetch_file (fun s => s) "u" "o" "h" (Net.mk 204 "aa f.bin" 200 "x" none)
        (FS.mk none none none)).1
      = FetchResult.error (FetchError.hashFetchFailed "h" 204) :=
  ⟨⟨by norm_num, by norm_num⟩, rfl⟩

/-- C6 (amended): For every HTTP response to the checksum-document
fetch: the operation proceeds only when the status is exactly 200 (OK);
for any other status — including success statuses other than 200, such as
204 — `fetch_file` fails with the transport error carrying the status code
(the Python message `"Failed to fetch hash from {hash_url}: {status}"`
names it), and the failure is fatal to the whole operation: no retry, no
payload download (`streamRequest` never happens), and no state change.
Conversely, when the status is 200 the hash-fetch transport error is never
raised. -/
theorem fetch_file_hash_status (sha256hex : String → String)
    (url output_path hash_url : String) (net : Net) (fs : FS)
    (hu : hash_url ≠ "") :
    (net.hashStatus ≠ 200 →
      fetch_file sha256hex url output_path hash_url net fs
        = (FetchResult.error
            (FetchError.hashFetchFailed hash_url net.hashStatus),
            fs, [Event.hashRequest])) ∧
    (net.hashStatus = 200 → ∀ u n,
      (fetch_file sha256hex url output_path hash_url net fs).1
        ≠ FetchResult.error (FetchError.hashFetchFailed u n)) := by
  constructor
  · intro h
    unfold fetch_file
    rw [if_neg hu, if_pos h]
  · intro hs u n
    unfold fetch_file
    rw [if_neg hu, hs, if_neg (by simp)]
    rcases hps : parse_hash_file net.hashBody with e | eh
    · simp
    · have hne : eh ≠ "" := (parse_hash_file_ok_sound _ _ hps).1
      simp only [if_neg hne]
      split
      · simp
      · split
        · simp
        · split
          · simp
          · split
            · simp
            · split
              · simp
              · simp

/-- Witness for C6 (amended): a 503 hash fetch fails fatally; a 200 hash
fetch never yields the transport error. -/
theorem fetch_file_hash_status_witness :
    (fetch_file (fun s => s) "u" "o" "h" (Net.mk 503 "aa f.bin" 200 "x" none)
        (FS.mk none none none)
      = (FetchResult.error (FetchError.hashFetchFailed "h" 503),
          FS.mk none none none, [Event.hashRequest])) ∧
    ((fetch_file (fun s => s) "u" "o" "h" (Net.mk 200 "aa f.bin" 200 "x" none)
        (FS.mk none none none)).1
      ≠ FetchResult.error (FetchError.hashFetchFailed "h" 503)) :=
  ⟨(fetch_file_hash_status (fun s => s) "u" "o" "h"
      (Net.mk 503 "aa f.bin" 200 "x" none) (FS.mk none none none)
      (by decide)).1 (by decide),
   (fetch_file_hash_status (fun s => s) "u" "o" "h"
      (Net.mk 200 "aa f.bin" 200 "x" none) (FS.mk none none none)
      (by decide)).2 rfl "h" 503⟩

/-- C7: In every run of `fetch_file` in which the streaming payload
request returns a non-success HTTP status (outside the 2xx class),
`fetch_file` returns `False` without raising (the outcome is `ok false`,
not an error), no file is committed to the destination path (the state's
destination and cache are unchanged, no `moveTempToDest`/`writeCache`
event), and the in-flight payload file is discarded and removed before
`fetch_file` returns (`deleteTemp` fires and the final state has no
`.downloading` file). -/
theorem fetch_file_stream_soft_fail (sha256hex : String → String)
    (url output_path hash_url : String) (net : Net) (fs : FS)
    (hu : hash_url ≠ "") (hs : net.hashStatus = 200) (expected_hash : String)
    (hp : parse_hash_file net.hashBody = Except.ok expected_hash)
    (hc : cache_hit fs expected_hash = false)
    (hl : fs.downloading = none)
    (hss : net.streamStatus < 200 ∨ 300 ≤ net.streamStatus) :
    fetch_file sha256hex url output_path hash_url net fs
      = (FetchResult.ok false, { fs with downloading := none },
          [Event.hashRequest, Event.createTemp, Event.streamRequest,
            Event.deleteTemp]) := by
  have hne : expected_hash ≠ "" := (parse_hash_file_ok_sound _ _ hp).1
  have hns : net.streamStatus ≠ 200 := by omega
  unfold fetch_file
  rw [if_neg hu, hs, if_neg (by simp), hp]
  simp only [if_neg hne, hc, Bool.false_eq_true, if_false, hl,
    Option.isSome_none, if_pos hns]

/-- Witness for C7: the payload request answers 404; the run is a clean
soft failure. -/
theorem fetch_file_stream_soft_fail_witness :
    fetch_file (fun s => s) "u" "o" "h" (Net.mk 200 "aa f.bin" 404 "x" none)
        (FS.mk (some "D") (some "bb  o") none)
      = (FetchResult.ok false, FS.mk (some "D") (some "bb  o") none,
          [Event.hashRequest, Event.createTemp, Event.streamRequest,
            Event.deleteTemp]) :=
  fetch_file_stream_soft_fail (fun s => s) "u" "o" "h"
    (Net.mk 200 "aa f.bin" 404 "x" none) (FS.mk (some "D") (some "bb  o") none)
    (by decide) rfl "aa" rfl rfl rfl (Or.inr (by decide))

/-- C8: For every input string containing at least one non-whitespace
character, `parse_hash_file` returns the first whitespace-delimited token
of the string (`firstToken`, the spec-side grammar); for every input that
is empty or consists only of whitespace, `parse_hash_file` raises. -/
theorem parse_hash_file_first_token (content : String) :
    ((∃ c ∈ content.toList, isPySpace c = false) →
      parse_hash_file content = Except.ok (firstToken content)) ∧
    ((∀ c ∈ content.toList, isPySpace c = true) →
      parse_hash_file content = Except.error "Empty hash file") :=
  ⟨parse_hash_file_first content, parse_hash_file_all_space content⟩

/-- Witness for C8: `"abc123  name.txt"` parses to its first token and
`"   "` raises. -/
theorem parse_hash_file_first_token_witness :
    (parse_hash_file "abc123  name.txt"
        = Except.ok (firstToken "abc123  name.txt")) ∧
    parse_hash_file "   " = Except.error "Empty hash file" :=
  ⟨(parse_hash_file_first_token "abc123  name.txt").1 (by decide),
   (parse_hash_file_first_token "   ").2 (by decide)⟩

/-- C9: Whenever `parse_hash_file` returns rather than raising, its
result is a non-empty string containing no whitespace; consequently the
"Empty hash received" branch of `fetch_file` (the check `if not
expected_hash` on the parsed digest) is unreachable: no run of
`fetch_file` terminates with the `emptyHash` error. -/
theorem parse_hash_file_sound_empty_unreachable :
    (∀ content t, parse_hash_file content = Except.ok t →
      t ≠ "" ∧ ∀ c ∈ t.toList, isPySpace c = false) ∧
    (∀ (sha256hex : String → String) (url output_path hash_url : String)
        (net : Net) (fs : FS) (s : String),
      (fetch_file sha256hex url output_path hash_url net fs).1
        ≠ FetchResult.error (FetchError.emptyHash s)) := by
  refine ⟨fun content t h => parse_hash_file_ok_sound content t h, ?_⟩
  intro sha256hex url output_path hash_url net fs s
  unfold fetch_file
  split
  · simp
  · split
    · simp
    · rcases hps : parse_hash_file net.hashBody with e | eh
      · simp
      · have hne : eh ≠ "" := (parse_hash_file_ok_sound _ _ hps).1
        simp only [if_neg hne]
        split
        · simp
        · split
          · simp
          · split
            · simp
            · split
              · simp
              · split
                · simp
                · simp

/-- Witness for C9: the digest parsed from `"abc123  name.txt"` is
non-empty and whitespace-free, and a concrete run never hits the
empty-hash branch. -/
theorem parse_hash_file_sound_empty_unreachable_witness :
    ("abc123" ≠ "" ∧ ∀ c ∈ "abc123".toList, isPySpace c = false) ∧
    (fetch_file (fun s => s) "u" "o" "h" (Net.mk 200 "aa f.bin" 200 "x" none)
        (FS.mk none none none)).1
      ≠ FetchResult.error (FetchError.emptyHash "h") :=
  ⟨parse_hash_file_sound_empty_unreachable.1 "abc123  name.txt" "abc123" rfl,
   parse_hash_file_sound_empty_unreachable.2 (fun s => s) "u" "o" "h"
     (Net.mk 200 "aa f.bin" 200 "x" none) (FS.mk none none none) "h"⟩

/-- C10: The cache check runs before the lock-marker check: whenever
the destination file and the cache record exist and the cached checksum
equals the expected checksum, `fetch_file` returns `False` with the state
— including an arbitrary stale `.downloading` lock marker — unmodified and
with the checksum-document request as the only event, i.e. the lock marker
is neither consulted as a blocker nor modified. -/
theorem fetch_file_cache_before_lock (sha256hex : String → String)
    (url output_path hash_url : String) (net : Net)
    (d c lockContent : String)
    (hu : hash_url ≠ "") (hs : net.hashStatus = 200) (expected_hash : String)
    (hp : parse_hash_file net.hashBody = Except.ok expected_hash)
    (hcp : parse_hash_file c = Except.ok expected_hash) :
    fetch_file sha256hex url output_path hash_url net
        (FS.mk (some d) (some c) (some lockContent))
      = (FetchResult.ok false, FS.mk (some d) (some c) (some lockContent),
          [Event.hashRequest]) :=
  fetch_file_cache_hit_run sha256hex url output_path hash_url net
    (FS.mk (some d) (some c) (some lockContent))
    hu hs expected_hash hp d rfl c rfl hcp

/-- Witness for C10: a stale lock `"STALE"` is present, the cache matches
the expected `"aa"`, and the run stops at the cache check with the lock
untouched. -/
theorem fetch_file_cache_before_lock_witness :
    fetch_file (fun s => s) "u" "o" "h" (Net.mk 200 "aa f.bin" 200 "x" none)
        (FS.mk (some "D") (some "aa  o") (some "STALE"))
      = (FetchResult.ok false, FS.mk (some "D") (some "aa  o") (some "STALE"),
          [Event.hashRequest]) :=
  fetch_file_cache_before_lock (fun s => s) "u" "o" "h"
    (Net.mk 200 "aa f.bin" 200 "x" none) "D" "aa  o" "STALE"
    (by decide) rfl "aa" rfl rfl
